import Mathlib

/-!
Verification of the natural-language specification of the
`ucla_basketball_rag` query-generation and repair pipeline against its
source (`src/query_generator.py`, `src/rag_pipeline.py`,
`src/db_connector.py`).

The Python code is shallowly embedded: every regular-expression check or
substitution used by the source is implemented as an executable matcher
over character lists with Python `re` semantics (case-insensitive
matching, `\b` word boundaries, lazy/greedy quantifier behaviour,
left-to-right non-overlapping substitution on the original string).
External capabilities (text generation, entity extraction, SQL
execution) are modelled as behaviour parameters, as the specification
itself treats them (opaque capabilities consumed by the core).
-/

namespace UclaRag

set_option maxHeartbeats 2000000

set_option maxRecDepth 8000

/-! ## Character classes and elementary string operations (Python model) -/

/-- Python ASCII whitespace, as matched by `\s` and stripped by `str.strip`. -/
def pySpace (c : Char) : Bool :=
  c = ' ' || c = '\t' || c = '\n' || c = '\r' || c = '\x0b' || c = '\x0c'

/-- Word characters for the regex classes `\w` and the `\b` boundary (ASCII). -/
def wordChar (c : Char) : Bool :=
  ('a' ≤ c && c ≤ 'z') || ('A' ≤ c && c ≤ 'Z') || ('0' ≤ c && c ≤ '9') || c = '_'

/-- ASCII digit, the regex class `\d`. -/
def digitChar (c : Char) : Bool := '0' ≤ c && c ≤ '9'

/-- ASCII lower-casing; models `str.lower` and `re.IGNORECASE` folding on the
ASCII data this system processes. -/
def lowerChar (c : Char) : Char := c.toLower

/-- Case-insensitive character equality. -/
def ciEq (a b : Char) : Bool := lowerChar a = lowerChar b

/-- Lower-cased copy of a string (`str.lower`). -/
def lowerStr (s : String) : String := ⟨s.data.map lowerChar⟩

/-- `str.strip()`: remove leading and trailing whitespace. -/
def pyStrip (s : String) : String :=
  ⟨((s.data.dropWhile pySpace).reverse.dropWhile pySpace).reverse⟩

/-- Case-sensitive prefix match, returning the rest after the pattern. -/
def csMatch : List Char → List Char → Option (List Char)
  | [], l => some l
  | _ :: _, [] => none
  | p :: ps, c :: cs => if p = c then csMatch ps cs else none

/-- Case-insensitive prefix match, returning the rest after the pattern. -/
def ciMatch : List Char → List Char → Option (List Char)
  | [], l => some l
  | _ :: _, [] => none
  | p :: ps, c :: cs => if ciEq p c then ciMatch ps cs else none

/-- Case-insensitive prefix match that also returns the last consumed input
character (needed to continue `\b` tracking after a replacement). -/
def ciMatchLast : List Char → List Char → Option (Option Char × List Char)
  | [], l => some (none, l)
  | _ :: _, [] => none
  | p :: ps, c :: cs =>
    if ciEq p c then
      match ciMatchLast ps cs with
      | some (last, rest) => some (some (last.getD c), rest)
      | none => none
    else none

/-- Substring containment of `needle` in `l` (Python's `in` operator). -/
def containsSub (needle : List Char) : List Char → Bool
  | [] => (csMatch needle []).isSome
  | c :: cs => (csMatch needle (c :: cs)).isSome || containsSub needle cs

/-- `containsStr hay needle`: Python `needle in hay`. -/
def containsStr (hay needle : String) : Bool := containsSub needle.data hay.data

/-- Suffix of `l` right after the first occurrence of `needle`, if any. -/
def afterFirst (needle : List Char) : List Char → Option (List Char)
  | [] => csMatch needle []
  | c :: cs =>
    match csMatch needle (c :: cs) with
    | some rest => some rest
    | none => afterFirst needle cs

/-- Split `l` at the first occurrence of `needle`: the part before it and the
part after it. -/
def splitAtFirst (needle : List Char) : List Char → Option (List Char × List Char)
  | [] => match csMatch needle [] with | some _ => some ([], []) | none => none
  | c :: cs =>
    match csMatch needle (c :: cs) with
    | some rest => some ([], rest)
    | none =>
      match splitAtFirst needle cs with
      | some (pre, post) => some (c :: pre, post)
      | none => none

/-! ## Generic regex search (`re.search`) over boolean position matchers

A position matcher receives the previous original character (for `\b`) and
the current suffix; `searchP` tries every position, left to right. -/

def searchP (m : Option Char → List Char → Bool) : Option Char → List Char → Bool
  | prev, [] => m prev []
  | prev, c :: cs => m prev (c :: cs) || searchP m (some c) cs

/-- `re.search` over a whole string. -/
def searchStr (m : Option Char → List Char → Bool) (s : String) : Bool :=
  searchP m none s.data

/-- `\b` on the left of a token made of word characters. -/
def boundaryL : Option Char → Bool
  | none => true
  | some c => !wordChar c

/-- `\b` on the right of a token made of word characters. -/
def boundaryR : List Char → Bool
  | [] => true
  | c :: _ => !wordChar c

/-- Position matcher for `\bTOK\b` with `re.IGNORECASE`. -/
def wordTokenAt (tok : List Char) (prev : Option Char) (l : List Char) : Bool :=
  boundaryL prev &&
    match ciMatch tok l with
    | some rest => boundaryR rest
    | none => false

/-- `re.search(r'\bTOK\b', s, re.IGNORECASE)`. -/
def searchWordCI (tok s : String) : Bool := searchStr (wordTokenAt tok.data) s

/-- One step of a lazy `.*?` scan: try the continuation at this position,
else consume one dot character (`.` excludes newline unless `dotAll`). -/
def lazyFind (dotAll : Bool) (p : List Char → Bool) : List Char → Bool
  | [] => p []
  | c :: cs => p (c :: cs) || ((dotAll || c ≠ '\n') && lazyFind dotAll p cs)

/-! ## The validator's structural patterns -/

/-- Tail matcher for `AVG\s*\([^)]+\)` (case-insensitive). -/
def avgCallAt (l : List Char) : Bool :=
  match ciMatch ['A', 'V', 'G'] l with
  | none => false
  | some r1 =>
    match r1.dropWhile pySpace with
    | '(' :: r2 =>
      match r2.span (· ≠ ')') with
      | (g, ')' :: _) => !g.isEmpty
      | (_, _) => false
    | _ => false

/-- Position matcher for `GROUP\s+BY.*?AVG\s*\([^)]+\)` (case-insensitive;
`dotAll` selects whether `.` crosses newlines: `validate_sql` searches it
without `re.DOTALL`, `_fix_sqlite_compatibility` with it). -/
def groupByAvgAt (dotAll : Bool) (l : List Char) : Bool :=
  match ciMatch ['G', 'R', 'O', 'U', 'P'] l with
  | none => false
  | some r1 =>
    match r1.span pySpace with
    | ([], _) => false
    | (_ :: _, r2) =>
      match ciMatch ['B', 'Y'] r2 with
      | some r3 => lazyFind dotAll avgCallAt r3
      | none => false

def searchGroupByAvg (dotAll : Bool) (s : String) : Bool :=
  searchStr (fun _ l => groupByAvgAt dotAll l) s

/-- Tail matcher for `WITH\s+\w+\s+AS\s*\(` (case-insensitive). -/
def withAsAt (l : List Char) : Bool :=
  match ciMatch ['W', 'I', 'T', 'H'] l with
  | none => false
  | some r1 =>
    match r1.span pySpace with
    | ([], _) => false
    | (_ :: _, r2) =>
      match r2.span wordChar with
      | ([], _) => false
      | (_ :: _, r3) =>
        match r3.span pySpace with
        | ([], _) => false
        | (_ :: _, r4) =>
          match ciMatch ['A', 'S'] r4 with
          | some r5 =>
            match r5.dropWhile pySpace with
            | '(' :: _ => true
            | _ => false
          | none => false

/-- Position matcher for `WHERE.*?WITH\s+\w+\s+AS\s*\(`. -/
def whereWithAt (dotAll : Bool) (l : List Char) : Bool :=
  match ciMatch ['W', 'H', 'E', 'R', 'E'] l with
  | some r1 => lazyFind dotAll withAsAt r1
  | none => false

def searchWhereWith (dotAll : Bool) (s : String) : Bool :=
  searchStr (fun _ l => whereWithAt dotAll l) s

/-! ## `db_connector._is_dangerous_query` -/

def mutatingKeywords : List (List Char) :=
  [['D', 'R', 'O', 'P'], ['D', 'E', 'L', 'E', 'T', 'E'],
   ['U', 'P', 'D', 'A', 'T', 'E'], ['I', 'N', 'S', 'E', 'R', 'T'],
   ['C', 'R', 'E', 'A', 'T', 'E'], ['A', 'L', 'T', 'E', 'R']]

/-- Position matcher for
`;\s*(DROP|DELETE|UPDATE|INSERT|CREATE|ALTER)\s+` (case-insensitive). -/
def dangerSepAt : List Char → Bool
  | ';' :: rest =>
    let r1 := rest.dropWhile pySpace
    mutatingKeywords.any fun kw =>
      match ciMatch kw r1 with
      | some (c :: _) => pySpace c
      | _ => false
  | _ => false

/-- Tail matcher for the inline comment marker `--`. -/
def dashDashAt : List Char → Bool
  | '-' :: '-' :: _ => true
  | _ => false

/-- Position matcher for `UNION\s+SELECT.*--` (case-insensitive, no DOTALL). -/
def unionInjAt (l : List Char) : Bool :=
  match ciMatch ['U', 'N', 'I', 'O', 'N'] l with
  | none => false
  | some r1 =>
    match r1.span pySpace with
    | ([], _) => false
    | (_ :: _, r2) =>
      match ciMatch ['S', 'E', 'L', 'E', 'C', 'T'] r2 with
      | some r3 => lazyFind false dashDashAt r3
      | none => false

/-- `DatabaseConnector._is_dangerous_query` (src/db_connector.py:101-107). -/
def is_dangerous_query (query : String) : Bool :=
  searchStr (fun _ l => dangerSepAt l) query || searchStr (fun _ l => unionInjAt l) query

/-! ## `query_generator.validate_sql` -/

/-- `not sql_query or sql_query.strip() == ""`. -/
def isEmptySql (s : String) : Bool := s.data.all pySpace

/-- `SQLQueryGenerator.validate_sql` (src/query_generator.py:220-251), with
the table name fixed to its instantiated value `ucla_player_stats`.
Returns `(is_valid, error_message)`. -/
def validate_sql (sql : String) : Bool × Option String :=
  if isEmptySql sql then (false, some ("Empty SQL query"))
  else if searchWordCI ("EXTRACT") sql then
    (false, some ("EXTRACT not supported in SQLite"))
  else if searchWordCI ("INTERVAL") sql then
    (false, some ("INTERVAL not supported in SQLite"))
  else if searchWordCI ("STDDEV") sql then
    (false, some ("STDDEV not supported in SQLite"))
  else if searchWordCI ("ILIKE") sql then
    (false, some ("ILIKE not supported in SQLite"))
  else if containsStr sql ("::") then
    (false, some ("PostgreSQL casting (::) not supported"))
  else if searchGroupByAvg false sql then
    (false, some ("Aggregate functions not allowed in GROUP BY"))
  else if searchWhereWith false sql then
    (false, some ("CTE cannot be used inside WHERE clause"))
  else if !searchWordCI ("SELECT") sql then
    (false, some ("Query must contain SELECT"))
  else if !containsStr sql ("ucla_player_stats") then
    (false, some ("Query must reference table 'ucla_player_stats'"))
  else (true, none)

/-- The spec's Safety Validator (§4.1) combines the two code-level checks the
claims cite: the dangerous-statement scan `_is_dangerous_query`
(src/db_connector.py:101-107, applied by `execute_query` before any
statement reaches the data store) and the dialect checks `validate_sql`
(src/query_generator.py:220-251). A candidate is accepted exactly when it
passes both. -/
def safetyValidate (sql : String) : Bool × Option String :=
  if is_dangerous_query sql then
    (false, some ("Query contains potentially dangerous SQL patterns"))
  else validate_sql sql

/-! ## Generic `re.sub` driver

`re.sub` scans the original string left to right; at each position it tries
the pattern; on a match it emits the replacement and resumes right after the
matched span (word-boundary context keeps referring to the original string's
characters), otherwise it emits the character and moves on.  Every pattern
used by the source consumes at least one character, so fuel equal to the
string length suffices. -/

def subAux (m : Option Char → List Char → Option (List Char × Char × List Char)) :
    Option Char → List Char → Nat → List Char
  | _, l, 0 => l
  | _, [], _ => []
  | prev, c :: cs, n + 1 =>
    match m prev (c :: cs) with
    | some (rep, lastC, rest) => rep ++ subAux m (some lastC) rest n
    | none => c :: subAux m (some c) cs n

def runSub (m : Option Char → List Char → Option (List Char × Char × List Char))
    (s : String) : String :=
  ⟨subAux m none s.data s.data.length⟩

/-- Case-insensitive prefix match returning the last consumed character and
the rest (for nonempty patterns). -/
def ciMatchL (pat l : List Char) : Option (Char × List Char) :=
  match ciMatchLast pat l with
  | some (some c, rest) => some (c, rest)
  | _ => none

/-! ## The repair rewrites of `_fix_sqlite_compatibility`
(src/query_generator.py:124-173), one matcher per regex of the
replacement table, in the source's order. -/

def extractRep (fmt g : List Char) : List Char :=
  "strftime('".data ++ fmt ++ "', ".data ++ g ++ [')']

/-- `EXTRACT\s*\(\s*UNIT\s+FROM\s+([^)]+)\)` → `strftime('FMT', \1)`
(case-insensitive).  The greedy `\s+`/`[^)]+` interaction: the group runs to
the first `)`; if everything between `FROM` and `)` is whitespace, the
backtracking engine moves the last whitespace character into the group. -/
def extractDateM (unit fmt : List Char) (_ : Option Char) (l : List Char) :
    Option (List Char × Char × List Char) :=
  match ciMatch ['E', 'X', 'T', 'R', 'A', 'C', 'T'] l with
  | none => none
  | some r1 =>
    match r1.dropWhile pySpace with
    | '(' :: r2 =>
      match ciMatch unit (r2.dropWhile pySpace) with
      | none => none
      | some r4 =>
        match r4.span pySpace with
        | ([], _) => none
        | (_ :: _, r5) =>
          match ciMatch ['F', 'R', 'O', 'M'] r5 with
          | none => none
          | some r6 =>
            match r6.span pySpace with
            | ([], _) => none
            | (ws2, r7) =>
              match r7.span (· ≠ ')') with
              | (g, ')' :: r9) =>
                if g.isEmpty then
                  if 2 ≤ ws2.length then
                    match ws2.getLast? with
                    | some w => some (extractRep fmt [w], ')', r9)
                    | none => none
                  else none
                else some (extractRep fmt g, ')', r9)
              | (_, _) => none
    | _ => none

def intervalRep (g ds : List Char) : List Char :=
  "date(".data ++ g ++ ", '+".data ++ ds ++ " days')".data

/-- Tail of `([^'\"]+)\s*\+\s*INTERVAL\s+'(\d+)'\s*DAY` after the group:
returns the digits, the last matched character, and the rest. -/
def intervalTail (l : List Char) : Option (List Char × Char × List Char) :=
  match l.dropWhile pySpace with
  | '+' :: r2 =>
    match ciMatch ['I', 'N', 'T', 'E', 'R', 'V', 'A', 'L'] (r2.dropWhile pySpace) with
    | none => none
    | some r4 =>
      match r4.span pySpace with
      | ([], _) => none
      | (_ :: _, r5) =>
        match r5 with
        | '\'' :: r6 =>
          match r6.span digitChar with
          | ([], _) => none
          | (ds, r7) =>
            match r7 with
            | '\'' :: r8 =>
              match r8.dropWhile pySpace with
              | d :: a :: y :: rest =>
                if ciEq 'D' d && ciEq 'A' a && ciEq 'Y' y then some (ds, y, rest)
                else none
              | _ => none
            | _ => none
        | _ => none
  | _ => none

/-- Greedy backtracking over the split of the `[^'\"]+` group: largest
group first, as the regex engine does. -/
def tryIntervalSplits (run rest : List Char) : Nat → Option (List Char × Char × List Char)
  | 0 => none
  | k + 1 =>
    match intervalTail (run.drop (k + 1) ++ rest) with
    | some (ds, lc, r) => some (intervalRep (run.take (k + 1)) ds, lc, r)
    | none => tryIntervalSplits run rest k

def intervalM (_ : Option Char) (l : List Char) : Option (List Char × Char × List Char) :=
  match l.span (fun c => c ≠ '\'' && c ≠ '"') with
  | ([], _) => none
  | (run, rest) => tryIntervalSplits run rest run.length

def castAlternatives : List (List Char) :=
  [['t', 'e', 'x', 't'], ['i', 'n', 't', 'e', 'g', 'e', 'r'],
   ['f', 'l', 'o', 'a', 't'], ['d', 'a', 't', 'e']]

def firstCast : List (List Char) → List Char → Option (Char × List Char)
  | [], _ => none
  | alt :: alts, r =>
    match ciMatchL alt r with
    | some (lc, rest) => some (lc, rest)
    | none => firstCast alts r

/-- `::text|::integer|::float|::date` → `` (case-insensitive). -/
def castM (_ : Option Char) (l : List Char) : Option (List Char × Char × List Char) :=
  match l with
  | ':' :: ':' :: r =>
    match firstCast castAlternatives r with
    | some (lc, rest) => some ([], lc, rest)
    | none => none
  | _ => none

/-- `\bTOK\b` → fixed replacement (case-insensitive). -/
def wordReplM (tok rep : List Char) (prev : Option Char) (l : List Char) :
    Option (List Char × Char × List Char) :=
  if boundaryL prev then
    match ciMatchL tok l with
    | some (lc, rest) => if boundaryR rest then some (rep, lc, rest) else none
    | none => none
  else none

def stddevRep (g : List Char) : List Char :=
  "SQRT(AVG((".data ++ g ++ " - sub_avg) * (".data ++ g ++ " - sub_avg)))".data

/-- `\bSTDDEV\s*\(\s*([^)]+)\s*\)` → `SQRT(AVG((\1 - sub_avg) * (\1 - sub_avg)))`. -/
def stddevM (prev : Option Char) (l : List Char) : Option (List Char × Char × List Char) :=
  if boundaryL prev then
    match ciMatch ['S', 'T', 'D', 'D', 'E', 'V'] l with
    | none => none
    | some r1 =>
      match r1.dropWhile pySpace with
      | '(' :: r2 =>
        match r2.span pySpace with
        | (ws, r3) =>
          match r3.span (· ≠ ')') with
          | (g, ')' :: r5) =>
            if g.isEmpty then
              match ws.getLast? with
              | some w => some (stddevRep [w], ')', r5)
              | none => none
            else some (stddevRep g, ')', r5)
          | (_, _) => none
      | _ => none
  else none

/-- The negative lookahead `(?!\s*\(|\s*,|\s*FROM|\s*WHERE|\s*ORDER|\s*GROUP)`
after `\bTO\b`. -/
def toLookaheadBlocks (rest : List Char) : Bool :=
  let r := rest.dropWhile pySpace
  (match r with
   | '(' :: _ => true
   | ',' :: _ => true
   | _ => false) ||
  (ciMatch ['F', 'R', 'O', 'M'] r).isSome || (ciMatch ['W', 'H', 'E', 'R', 'E'] r).isSome ||
  (ciMatch ['O', 'R', 'D', 'E', 'R'] r).isSome || (ciMatch ['G', 'R', 'O', 'U', 'P'] r).isSome

/-- `\bTO\b(?!\s*\(|\s*,|\s*FROM|\s*WHERE|\s*ORDER|\s*GROUP)` → `"TO"`. -/
def toM (prev : Option Char) (l : List Char) : Option (List Char × Char × List Char) :=
  if boundaryL prev then
    match ciMatchL ['T', 'O'] l with
    | some (lc, rest) =>
      if boundaryR rest && !toLookaheadBlocks rest then
        some (['"', 'T', 'O', '"'], lc, rest)
      else none
    | none => none
  else none

/-- The positive lookahead `(?=\s*=|\s*>|\s*<|\s*IN)` after `\bNo\b`. -/
def noLookaheadHolds (rest : List Char) : Bool :=
  let r := rest.dropWhile pySpace
  match r with
  | '=' :: _ => true
  | '>' :: _ => true
  | '<' :: _ => true
  | _ => (ciMatch ['I', 'N'] r).isSome

/-- `\bNo\b(?=\s*=|\s*>|\s*<|\s*IN)` → `"No"`. -/
def noM (prev : Option Char) (l : List Char) : Option (List Char × Char × List Char) :=
  if boundaryL prev then
    match ciMatchL ['N', 'o'] l with
    | some (lc, rest) =>
      if boundaryR rest && noLookaheadHolds rest then
        some (['"', 'N', 'o', '"'], lc, rest)
      else none
    | none => none
  else none

/-- `WHERE\s*\)` → `)`. -/
def whereParenM (_ : Option Char) (l : List Char) : Option (List Char × Char × List Char) :=
  match ciMatch ['W', 'H', 'E', 'R', 'E'] l with
  | some r1 =>
    match r1.dropWhile pySpace with
    | ')' :: r2 => some ([')'], ')', r2)
    | _ => none
  | none => none

/-- `WHERE\s*AND` → `WHERE`. -/
def whereAndM (_ : Option Char) (l : List Char) : Option (List Char × Char × List Char) :=
  match ciMatch ['W', 'H', 'E', 'R', 'E'] l with
  | some r1 =>
    match ciMatchL ['A', 'N', 'D'] (r1.dropWhile pySpace) with
    | some (lc, rest) => some (['W', 'H', 'E', 'R', 'E'], lc, rest)
    | none => none
  | none => none

/-- `""([^"]+)""` → `"\1"` (case-sensitive). -/
def collapseQuotesM (_ : Option Char) (l : List Char) :
    Option (List Char × Char × List Char) :=
  match l with
  | '"' :: '"' :: r1 =>
    match r1.span (· ≠ '"') with
    | ([], _) => none
    | (g, '"' :: '"' :: r3) => some ('"' :: (g ++ ['"']), '"', r3)
    | (_, _) => none
  | _ => none

/-- `WITH\s+\w+\s+AS\s*\(` → `(` (the best-effort CTE strip). -/
def withStripM (_ : Option Char) (l : List Char) : Option (List Char × Char × List Char) :=
  match ciMatch ['W', 'I', 'T', 'H'] l with
  | none => none
  | some r1 =>
    match r1.span pySpace with
    | ([], _) => none
    | (_ :: _, r2) =>
      match r2.span wordChar with
      | ([], _) => none
      | (_ :: _, r3) =>
        match r3.span pySpace with
        | ([], _) => none
        | (_ :: _, r4) =>
          match ciMatch ['A', 'S'] r4 with
          | some r5 =>
            match r5.dropWhile pySpace with
            | '(' :: r6 => some (['('], '(', r6)
            | _ => none
          | none => none

/-! ## Parenthesis balancing (src/query_generator.py:163-168) -/

def countChar (c : Char) (l : List Char) : Nat := l.count c

/-- One application of `re.sub(r'\)\s*$', '', sql, count=k)` for `k ≥ 1`:
the pattern is anchored at the end of the string, so at most one
(leftmost) match exists — the last `)` together with all trailing
whitespace — regardless of `count`. -/
def stripTrailingParen (l : List Char) : List Char :=
  match l.reverse.dropWhile pySpace with
  | ')' :: rest => rest.reverse
  | _ => l

def balanceParens (s : String) : String :=
  let opens := countChar '(' s.data
  let closes := countChar ')' s.data
  if closes < opens then s ++ ⟨List.replicate (opens - closes) ')'⟩
  else if opens < closes then ⟨stripTrailingParen s.data⟩
  else s

/-! ## Canonical templates (verbatim from the source, `.strip()` applied
where the source applies it) -/

def opponentTemplate : String :=
  "SELECT\n          'vs_all_opponents' as analysis_type,\n          COUNT(*) as games_played,\n          ROUND(AVG(Pts), 1) as avg_points,\n          ROUND(AVG(Reb), 1) as avg_rebounds,\n          ROUND(CAST(SUM(FGM) AS REAL) / NULLIF(SUM(FGA), 0) * 100, 1) as fg_percentage,\n          ROUND(AVG(Blk), 1) as avg_blocks,\n          GROUP_CONCAT(DISTINCT Opponent) as opponents_faced\n        FROM ucla_player_stats\n        WHERE Name = 'Betts, Lauren'\n          AND Name NOT IN ('Totals', 'TM', 'Team')"

def closeCteTemplate : String :=
  "SELECT \n              Name,\n              COUNT(*) as games_played,\n              ROUND(AVG(Pts), 1) as avg_pts,\n              ROUND(AVG(Ast), 1) as avg_ast,\n              ROUND(AVG(Reb), 1) as avg_reb,\n              ROUND(AVG(\"TO\"), 1) as avg_to,\n              ROUND(CAST(SUM(FGM) AS REAL) / NULLIF(SUM(FGA), 0) * 100, 1) as fg_pct,\n              ROUND(CAST(SUM(\"3PTM\") AS REAL) / NULLIF(SUM(\"3PTA\"), 0) * 100, 1) as three_pt_pct\n            FROM ucla_player_stats\n            WHERE Name IN ('Rice, Kiki', 'Jones, Londynn')\n              AND Name NOT IN ('Totals', 'TM', 'Team')\n              AND game_date IN (\n                SELECT game_date \n                FROM ucla_player_stats \n                WHERE Name = 'Totals' \n                AND Pts BETWEEN 70 AND 90\n              )\n            GROUP BY Name\n            ORDER BY avg_pts DESC"

def closeGamesTemplate : String :=
  "SELECT \n          Name,\n          COUNT(*) as games_played,\n          ROUND(AVG(Pts), 1) as avg_pts,\n          ROUND(AVG(Ast), 1) as avg_ast,\n          ROUND(AVG(Reb), 1) as avg_reb,\n          ROUND(AVG(\"TO\"), 1) as avg_to,\n          ROUND(CAST(SUM(FGM) AS REAL) / NULLIF(SUM(FGA), 0) * 100, 1) as fg_pct,\n          ROUND(CAST(SUM(\"3PTM\") AS REAL) / NULLIF(SUM(\"3PTA\"), 0) * 100, 1) as three_pt_pct\n        FROM ucla_player_stats\n        WHERE Name IN ('Rice, Kiki', 'Jones, Londynn')\n          AND Name NOT IN ('Totals', 'TM', 'Team')\n        GROUP BY Name\n        ORDER BY avg_pts DESC"

/-- `SQLQueryGenerator._fix_cte_in_where` (src/query_generator.py:191-218). -/
def fixCteInWhere (sql : String) : String :=
  if containsStr (lowerStr sql) ("close") &&
      (containsStr sql ("Rice") || containsStr sql ("Jones")) then
    closeCteTemplate
  else runSub withStripM sql

/-- `SQLQueryGenerator._fix_sqlite_compatibility`
(src/query_generator.py:124-173): the Dialect Repair Engine.  The two
structural checks run first (with `re.DOTALL`), then the replacement table
in order, the syntax fixes, and parenthesis balancing. -/
def fix_sqlite_compatibility (sql : String) : String :=
  if sql = "" then sql
  else
    let s1 :=
      if searchGroupByAvg true sql && containsStr (lowerStr sql) ("opponent_strength") then
        opponentTemplate
      else sql
    let s2 := if searchWhereWith true s1 then fixCteInWhere s1 else s1
    let s3 := runSub (extractDateM ['Y', 'E', 'A', 'R'] ['%', 'Y']) s2
    let s4 := runSub (extractDateM ['M', 'O', 'N', 'T', 'H'] ['%', 'm']) s3
    let s5 := runSub intervalM s4
    let s6 := runSub castM s5
    let s7 := runSub (wordReplM ['I', 'L', 'I', 'K', 'E'] ['L', 'I', 'K', 'E']) s6
    let s8 := runSub stddevM s7
    let s9 := runSub (wordReplM ['3', 'P', 'T', 'M'] ['"', '3', 'P', 'T', 'M', '"']) s8
    let s10 := runSub (wordReplM ['3', 'P', 'T', 'A'] ['"', '3', 'P', 'T', 'A', '"']) s9
    let s11 := runSub toM s10
    let s12 := runSub noM s11
    let s13 := runSub whereParenM s12
    let s14 := runSub whereAndM s13
    let s15 := runSub collapseQuotesM s14
    balanceParens s15

/-- All forbidden patterns of `validate_sql` in one predicate (used to state
the hypotheses of the idempotence claim). -/
def hasForbiddenPattern (s : String) : Bool :=
  searchWordCI ("EXTRACT") s || searchWordCI ("INTERVAL") s ||
  searchWordCI ("STDDEV") s || searchWordCI ("ILIKE") s || containsStr s ("::") ||
  searchGroupByAvg false s || searchWhereWith false s

/-- Equal counts of `(` and `)`. -/
def parensBalanced (s : String) : Bool :=
  countChar '(' s.data == countChar ')' s.data

/-! ## `_extract_sql` (src/query_generator.py:262-283) -/

/-- Does the remaining input match `;?\s*$` (an optional semicolon, then
only whitespace up to the end)? -/
def restSemiWs (l : List Char) : Bool :=
  l.all pySpace ||
    match l with
    | ';' :: r => r.all pySpace
    | _ => false

/-- The lazy tail of the group in `(SELECT.*?;?)\s*$` (with `re.DOTALL`):
the shortest expansion after which the remainder is `;?\s*$`; the optional
semicolon is part of the group. -/
def selectGroupTail : List Char → List Char
  | [] => []
  | c :: cs =>
    if restSemiWs (c :: cs) then (if c = ';' then [';'] else [])
    else c :: selectGroupTail cs

/-- Leftmost case-insensitive occurrence of `SELECT`, returning the matched
characters (original case) and the rest. -/
def findSelectCI : List Char → Option (List Char × List Char)
  | [] => none
  | c :: cs =>
    match ciMatch ['S', 'E', 'L', 'E', 'C', 'T'] (c :: cs) with
    | some rest => some ((c :: cs).take 6, rest)
    | none => findSelectCI cs

/-- `re.sub(r'^[^S]*?(SELECT)', r'\1', response, re.IGNORECASE | re.DOTALL)`:
with `IGNORECASE` the class `[^S]` excludes both `S` and `s`, so the lazy
prefix runs to the first `S`/`s`; if `SELECT` starts there the prefix is
dropped (the replacement is the matched group itself), else no match. -/
def stripToSelect (l : List Char) : List Char :=
  match l.span (fun c => c ≠ 'S' && c ≠ 's') with
  | (_, rest) => if (ciMatch ['S', 'E', 'L', 'E', 'C', 'T'] rest).isSome then rest else l

/-- The `(SELECT.*?;?)\s*$` strategy, else the prefix strip. -/
def extractSqlSelectTail (response : String) : String :=
  match findSelectCI response.data with
  | some (sel, rest) => pyStrip ⟨sel ++ selectGroupTail rest⟩
  | none => pyStrip ⟨stripToSelect response.data⟩

/-- The backtick character (code 96), written via its code point. -/

def backtickChar : Char := Char.ofNat 96

/-- The backtick-span / SELECT-clause / prefix-strip strategies of
`_extract_sql` (tried when no fenced ```sql block matches). -/
def extractSqlFallback (response : String) : String :=
  match afterFirst [backtickChar] response.data with
  | some r =>
    match splitAtFirst [backtickChar] r with
    | some (inner, _) => pyStrip ⟨inner⟩
    | none => extractSqlSelectTail response
  | none => extractSqlSelectTail response

/-- `SQLQueryGenerator._extract_sql`: ordered extraction strategies — a
```sql fenced block, an inline backtick span, a trailing SELECT clause,
else the best-effort prefix strip.  For the first two strategies the
regex group is `\s*(.*?)\s*` between the delimiters and the result is
`.strip()`ed, which equals stripping the text between the first opening
delimiter and the first closing delimiter after it. -/
def extract_sql (response : String) : String :=
  if response = "" then ""
  else
    match afterFirst [backtickChar, backtickChar, backtickChar, 's', 'q', 'l'] response.data with
    | some r =>
      match splitAtFirst [backtickChar, backtickChar, backtickChar] r with
      | some (inner, _) => pyStrip ⟨inner⟩
      | none => extractSqlFallback response
    | none => extractSqlFallback response

/-! ## `generate_sql_query` (src/query_generator.py:48-84) -/

/-- `SQLQueryGenerator._is_close_games_query` (src/query_generator.py:285-289). -/
def is_close_games_query (q : String) : Bool :=
  containsStr (lowerStr q) ("close") && containsStr (lowerStr q) ("games") &&
    (containsStr q ("Rice") || containsStr q ("Jones") ||
     containsStr q ("Kiki") || containsStr q ("Londynn"))

/-- The textual rendering of the Entity Set for the prompt
(`str(extracted_entities) if extracted_entities else 'None'`).  The Entity
Set is modelled throughout by its resolved `player_names` list — the only
field the pipeline's logic reads; an absent/empty set renders as `None`. -/
def entitiesRepr (ents : List String) : String :=
  if ents.isEmpty then "None"
  else
    "\x7b'player_names': [" ++
      String.intercalate ", " (ents.map (fun n => "'" ++ n ++ "'")) ++ "]\x7d"

def createPrompt (userQuery : String) (schemaStr : String) (entitiesStr : String) : String :=
  "\nYou are an expert SQLite query generator for UCLA women's basketball statistics.\n\nCRITICAL SQLITE REQUIREMENTS:\n- Use ONLY SQLite syntax - NO PostgreSQL features\n- FORBIDDEN: EXTRACT, INTERVAL, DATE_TRUNC, STDDEV, VARIANCE, ILIKE, ::, SIMILAR TO, SPLIT_PART\n- For dates: Use strftime('%Y-%m-%d', date_column) instead of EXTRACT\n- For standard deviation: Use SQRT(AVG((col - avg_col) * (col - avg_col)))\n- Use CAST(col AS REAL) for type conversion, not ::\n- Use LIKE instead of ILIKE\n\nCOLUMN NAMING:\n- Always quote special columns: \"3PTM\", \"3PTA\", \"TO\", \"No\", \"OR-DR\"\n- Column names are case-sensitive\n- Available: Name, \"No\", Min, FG, \"3PT\", FT, \"OR-DR\", Reb, Ast, \"TO\", Blk, Stl, Pts, Opponent, game_date\n\nDatabase schema:\n" ++ schemaStr ++ "\n\nExtracted entities: " ++ entitiesStr ++ "\n\nUser question: " ++ userQuery ++ "\n\nRULES:\n- Always exclude Name='Totals', Name='TM', Name='Team' (use WHERE Name NOT IN ('Totals', 'TM', 'Team'))\n- Quote special column names: \"TO\", \"3PTM\", \"3PTA\", \"No\"\n- Use SQLite date functions: date(), datetime(), strftime()\n- Handle NULL with NULLIF() or COALESCE()\n- Avoid complex CTEs - use simple subqueries\n- Keep queries simple\n\nGenerate ONLY the SQL query with no explanations.\n"

/-- `SQLQueryGenerator.generate_sql_query` (src/query_generator.py:48-84).
The text-generation capability is the behaviour parameter `llm`
(`none` models `generate_text` raising); the rendered schema string is a
parameter (schema introspection is an external interface, spec §6).
On the recognized close-games question the canonical template is returned
before any generation request is built; on a generation failure the result
is `none`; otherwise the raw response goes through extraction, repair,
validation and a retry budget of 2 extra attempts. -/
def generate_sql_query (llm : String → Option String) (schemaStr : String)
    (q : String) (ents : List String) (retry : Nat) : Option String :=
  if is_close_games_query q then some closeGamesTemplate
  else
    match llm (createPrompt q schemaStr (entitiesRepr ents)) with
    | none => none
    | some resp =>
      let sql := fix_sqlite_compatibility (extract_sql resp)
      if h : ¬(validate_sql sql).1 ∧ retry < 2 then
        generate_sql_query llm schemaStr q ents (retry + 1)
      else some sql
termination_by 2 - retry
decreasing_by simp_wf; omega

/-! ## The Pipeline Orchestrator (src/rag_pipeline.py)

Rows are modelled as lists of scalar renderings; the data-execution
capability is a behaviour `Db` mapping SQL text to the `(results, error)`
pair that `execute_query(..., return_error=True)` yields. -/

abbrev Row := List String

abbrev Db := String → Option (List Row) × Option String

/-- Python truthiness of an optional error string (`if sql_error:`). -/
def pyTruthyErr : Option String → Bool
  | none => false
  | some s => s ≠ ""

/-- Python truthiness of optional results (`if error or not results:`). -/
def pyTruthyRows : Option (List Row) → Bool
  | none => false
  | some rs => !rs.isEmpty

/-- The Result Envelope: the dictionary `process_query` returns.  Keys that
only some code paths set (`extracted_entities`, `error`, `fallback_used`)
default to their Python-absent reading. -/
structure Envelope where
  user_query : String
  extracted_entities : Option (List String) := none
  error : Option String := none
  sql_query : Option String := none
  query_results : Option (List Row) := none
  response : String := ""
  success : Bool := false
  fallback_used : Bool := false
  deriving Repr, DecidableEq

/-- `RAGPipeline._error_response` (src/rag_pipeline.py:280-288). -/
def error_response (q err : String) (userMessage : Option String) : Envelope :=
  { user_query := q, error := some err,
    response := userMessage.getD "There was an error processing your question. Please try again.",
    success := false }

/-- Rendering of one result row into response text (models Python's tuple
repr in the f-strings of `_generate_response`). -/
def rowRepr (r : Row) : String := "(" ++ String.intercalate ", " r ++ ")"

def rowsRepr (rs : List Row) : String :=
  "[" ++ String.intercalate ", " (rs.map rowRepr) ++ "]"

def responsePrompt (userQuery : String) (sqlQuery : String) (resultsRepr : String) : String :=
  "\n        Based on the following UCLA women's basketball statistics, provide a clear answer to the user's question.\n        \n        User question: " ++ userQuery ++ "\n        SQL query used: " ++ sqlQuery ++ "\n        Query results (up to 10 rows): " ++ resultsRepr ++ "\n        \n        Instructions:\n        - Provide a direct answer to the user's question\n        - Include specific numbers and statistics from the data\n        - Format clearly and concisely\n        - If comparing players, present the comparison clearly\n        - Don't mention SQL or technical details\n        "

/-- `RAGPipeline._generate_response` (src/rag_pipeline.py:250-278).  A
failing text-generation call falls back to the basic counted message and
never raises. -/
def generate_response (llm : String → Option String) (q sql : String)
    (results : List Row) : String :=
  if results.isEmpty then "I couldn't find any data matching your request."
  else
    match llm (responsePrompt q sql (rowsRepr (results.take 10))) with
    | some t => t
    | none =>
      match results with
      | [r] => "I found one result: " ++ rowRepr r
      | _ =>
        "I found " ++ toString results.length ++
          " results. Here are the first few: " ++ rowsRepr (results.take 3)

/-! ### The Fallback Ladder's template generators (src/rag_pipeline.py:158-220) -/

def simpleAggPointsSql (playerFilter : String) : String :=
  "\n                SELECT Name, ROUND(AVG(Pts), 2) as avg_points\n                FROM ucla_player_stats\n                WHERE Name NOT IN ('Totals', 'TM', 'Team') " ++ playerFilter ++ "\n                GROUP BY Name\n                ORDER BY avg_points DESC\n                LIMIT 10\n                "

def simpleAggRebSql (playerFilter : String) : String :=
  "\n                SELECT Name, ROUND(AVG(Reb), 2) as avg_rebounds\n                FROM ucla_player_stats\n                WHERE Name NOT IN ('Totals', 'TM', 'Team') " ++ playerFilter ++ "\n                GROUP BY Name\n                ORDER BY avg_rebounds DESC\n                LIMIT 10\n                "

def basicPlayerSql (whereClause : String) : String :=
  "\n            SELECT Name, Pts, Reb, Ast, \"TO\", Stl, Blk, Opponent, game_date\n            FROM ucla_player_stats\n            WHERE " ++ whereClause ++ " AND Name NOT IN ('Totals', 'TM', 'Team')\n            ORDER BY game_date DESC\n            LIMIT 20\n            "

def topPerformersSql : String :=
  "\n            SELECT Name, AVG(Pts) as avg_points, AVG(Reb) as avg_rebounds, AVG(Ast) as avg_assists\n            FROM ucla_player_stats\n            WHERE Name NOT IN ('Totals', 'TM', 'Team')\n            GROUP BY Name\n            ORDER BY avg_points DESC\n            LIMIT 10\n            "

/-- `"', '".join(names)` inside `AND Name IN ('…')`. -/
def playerFilterOf (ents : List String) : String :=
  "AND Name IN ('" ++ String.intercalate "', '" ents ++ "')"

/-- `RAGPipeline._simple_aggregation_query` (src/rag_pipeline.py:158-188). -/
def simple_aggregation_query (q : String) (ents : List String) : Option String :=
  let pf := if ents.isEmpty then "" else playerFilterOf ents
  let ql := lowerStr q
  if containsStr ql ("average") || containsStr ql ("avg") then
    if containsStr ql ("points") then some (simpleAggPointsSql pf)
    else if containsStr ql ("rebounds") then some (simpleAggRebSql pf)
    else none
  else none

/-- `RAGPipeline._basic_player_query` (src/rag_pipeline.py:190-205). -/
def basic_player_query (_q : String) (ents : List String) : Option String :=
  if ents.isEmpty then none
  else some (basicPlayerSql ("Name IN ('" ++ String.intercalate "', '" ents ++ "')"))

/-- `RAGPipeline._top_performers_query` (src/rag_pipeline.py:207-220). -/
def top_performers_query (q : String) (_ents : List String) : Option String :=
  let ql := lowerStr q
  if containsStr ql ("best") || containsStr ql ("top") then some topPerformersSql
  else none

def noteSuffix : String := "\n\n(Note: Used a simplified query due to complexity.)"

/-- One iteration of the fallback loop in `_try_fallback`
(src/rag_pipeline.py:127-154): a candidate that is absent, fails
validation, errors on execution, or returns no rows is skipped. -/
def attempt_fallback (llm : String → Option String) (db : Db) (q : String)
    (cand : Option String) : Option Envelope :=
  match cand with
  | none => none
  | some fsql =>
    if !(validate_sql fsql).1 then none
    else
      let (results, err) := db fsql
      if pyTruthyErr err || !pyTruthyRows results then none
      else
        let rows := results.getD []
        some { user_query := q, sql_query := some fsql, query_results := some rows,
               response := generate_response llm q fsql rows ++ noteSuffix,
               success := true, fallback_used := true }

/-- `RAGPipeline._try_fallback` (src/rag_pipeline.py:117-156): the three
template generators in their fixed order; the first that validates and
returns at least one row wins. -/
def try_fallback (llm : String → Option String) (db : Db) (q : String)
    (ents : List String) : Option Envelope :=
  match attempt_fallback llm db q (simple_aggregation_query q ents) with
  | some e => some e
  | none =>
    match attempt_fallback llm db q (basic_player_query q ents) with
    | some e => some e
    | none => attempt_fallback llm db q (top_performers_query q ents)

/-- The empty-result recovery substitution
`re.sub(r"WHERE.*?Name.*?=.*?'[^']*'.*?AND", "WHERE", sql, re.IGNORECASE)`
(src/rag_pipeline.py:226-231), built lazily from the last element of the
pattern backwards; each scanner tries its continuation first and otherwise
consumes one non-newline character (with full backtracking). -/
def lazyAnd : List Char → Option (Char × List Char)
  | [] => none
  | c :: cs =>
    match ciMatchL ['A', 'N', 'D'] (c :: cs) with
    | some (lc, rest) => some (lc, rest)
    | none => if c ≠ '\n' then lazyAnd cs else none

def lazyQuote : List Char → Option (Char × List Char)
  | [] => none
  | c :: cs =>
    match
      (if c = '\'' then
        match cs.span (· ≠ '\'') with
        | (_, '\'' :: rest) => lazyAnd rest
        | (_, _) => none
      else none) with
    | some r => some r
    | none => if c ≠ '\n' then lazyQuote cs else none

def lazyEq : List Char → Option (Char × List Char)
  | [] => none
  | c :: cs =>
    match (if c = '=' then lazyQuote cs else none) with
    | some r => some r
    | none => if c ≠ '\n' then lazyEq cs else none

def lazyName : List Char → Option (Char × List Char)
  | [] => none
  | c :: cs =>
    match
      (match ciMatch ['N', 'a', 'm', 'e'] (c :: cs) with
       | some rest => lazyEq rest
       | none => none) with
    | some r => some r
    | none => if c ≠ '\n' then lazyName cs else none

def playerPredM (_ : Option Char) (l : List Char) :
    Option (List Char × Char × List Char) :=
  match ciMatch ['W', 'H', 'E', 'R', 'E'] l with
  | none => none
  | some r1 =>
    match lazyName r1 with
    | some (lc, rest) => some (['W', 'H', 'E', 'R', 'E'], lc, rest)
    | none => none

def strip_player_predicate (sql : String) : String := runSub playerPredM sql

/-- `RAGPipeline._handle_empty` (src/rag_pipeline.py:222-248). -/
def handle_empty (llm : String → Option String) (db : Db) (q : String)
    (ents : List String) (sql : String) : Option Envelope :=
  if ents.isEmpty then none
  else
    let modified := strip_player_predicate sql
    if modified = sql then none
    else
      let (results, err) := db modified
      if !pyTruthyErr err && pyTruthyRows results then
        let rows := results.getD []
        some { user_query := q, sql_query := some modified,
               query_results := some (rows.take 5),
               response :=
                 "I couldn't find specific data for that player. Here's what I found instead:\n"
                   ++ generate_response llm q modified (rows.take 5),
               success := true, fallback_used := true }
      else none

def genericUnexpectedMsg : String :=
  "I encountered an unexpected error. Please try again or rephrase your question."

def noDataMsg : String :=
  "I couldn't find any data matching your criteria. Please try rephrasing your question."

/-- `RAGPipeline.process_query` (src/rag_pipeline.py:36-115).  Behaviours:
`llm` is the text-generation capability (`none` = the call raises), `db`
the data-execution capability, `extract` the entity-extraction capability
(`Except.error e` = it raises with detail `e`, the only point inside the
orchestrator's `try` where the source can raise; the surrounding
`except Exception` then produces the generic failure envelope, so the
embedded function is total — no exception escapes). -/
def process_query (llm : String → Option String) (db : Db)
    (extract : Except String (List String)) (schemaStr : String)
    (q : String) : Envelope :=
  match extract with
  | .error e => error_response q e (some genericUnexpectedMsg)
  | .ok entities =>
    match generate_sql_query llm schemaStr q entities 0 with
    | none => error_response q "Failed to generate SQL query" none
    | some sql =>
      if sql = "" then error_response q "Failed to generate SQL query" none
      else
        let v := validate_sql sql
        if !v.1 then
          match try_fallback llm db q entities with
          | some fb => fb
          | none => error_response q ("SQL validation failed: " ++ v.2.getD "None") none
        else
          let (results, sqlErr) := db sql
          if pyTruthyErr sqlErr then
            match try_fallback llm db q entities with
            | some fb => fb
            | none => error_response q ("SQL execution failed: " ++ sqlErr.getD "") none
          else
            let rows := (results.getD [])
            if rows.isEmpty then
              match handle_empty llm db q entities sql with
              | some fb => fb
              | none =>
                { user_query := q, sql_query := some sql, query_results := some [],
                  response := noDataMsg, success := false }
            else
              { user_query := q, extracted_entities := some entities,
                sql_query := some sql, query_results := some rows,
                response := generate_response llm q sql rows, success := true }

/-! ## `DatabaseConnector.execute_query` (src/db_connector.py:54-99)

The SQLite engine is a behaviour: for a given statement it either yields
rows, raises a `sqlite3.Error`, or raises some other exception.  All three
are handled inside `execute_query`; with `return_error=True` it returns a
`(results, error)` pair, otherwise a bare result. -/

inductive EngineOutcome
  | ok (rows : List Row)
  | sqliteErr (msg : String)
  | otherErr (msg : String)

abbrev Engine := String → EngineOutcome

inductive ExecReturn
  | pair (results : Option (List Row)) (error : Option String)
  | bare (results : Option (List Row))
  deriving Repr, DecidableEq

def dangerMsg : String := "Query contains potentially dangerous SQL patterns"

def execute_query (engine : Engine) (query : String) (return_error : Bool) : ExecReturn :=
  if is_dangerous_query query then
    if return_error then .pair none (some dangerMsg) else .bare none
  else
    match engine query with
    | .ok r => if return_error then .pair (some r) none else .bare (some r)
    | .sqliteErr e =>
      if return_error then .pair none (some ("SQLite error: " ++ e)) else .bare none
    | .otherErr e =>
      if return_error then .pair none (some ("Unexpected error: " ++ e)) else .bare none

/-! ## Concrete behaviours used by counterexamples and witnesses -/

/-- A text-generation capability that raises on every call. -/
def llmAlwaysFail : String → Option String := fun _ => none

/-- A data-execution behaviour that returns one fixed row for every query. -/
def dbAllRows : Db := fun _ => (some [["Betts, Lauren", "20.0"]], none)

/-- A SQLite engine behaviour that returns no rows for every statement. -/
def engineEmpty : Engine := fun _ => .ok []

/-! ## Helper lemmas -/

theorem dataAppend (a b : String) : (a ++ b).data = a.data ++ b.data := by
  cases a; cases b; rfl

/-- If the position matcher fires on the suffix `l` wherever it starts,
`re.search` succeeds on any extension `a ++ l` to the left. -/
theorem searchP_append_of_all (m : Option Char → List Char → Bool) (l : List Char)
    (h : ∀ p, searchP m p l = true) :
    ∀ (a : List Char) (p0 : Option Char), searchP m p0 (a ++ l) = true := by
  intro a
  induction a with
  | nil => intro p0; simpa using h p0
  | cons c cs ih =>
    intro p0
    simp [searchP, ih (some c)]

/-- The mutating-statement pattern fires on `; DROP ` whatever follows. -/
theorem dangerSepAt_semi_drop (b : List Char) :
    dangerSepAt (';' :: ' ' :: 'D' :: 'R' :: 'O' :: 'P' :: ' ' :: b) = true := rfl

theorem searchP_danger_head (b : List Char) (p : Option Char) :
    searchP (fun _ l => dangerSepAt l) p
      (';' :: ' ' :: 'D' :: 'R' :: 'O' :: 'P' :: ' ' :: b) = true := by
  simp only [searchP, dangerSepAt_semi_drop, Bool.true_or]

/-! ## Claim theorems -/

/-- Claim C1 (confirmed).  Any SQL string containing the statement separator
followed by `DROP TABLE x` — i.e. any `a ++ "; DROP TABLE x" ++ b` — is
rejected by the Safety Validator regardless of the surrounding SQL, and the
minimal query `SELECT * FROM ucla_player_stats` is accepted. -/
theorem C1_drop_rejected_minimal_accepted :
    (∀ a b : String, (safetyValidate (a ++ "; DROP TABLE x" ++ b)).1 = false) ∧
    safetyValidate "SELECT * FROM ucla_player_stats" = (true, none) := by
  constructor
  · intro a b
    have hdata : (a ++ "; DROP TABLE x" ++ b).data
        = a.data ++ (';' :: ' ' :: 'D' :: 'R' :: 'O' :: 'P' :: ' '
            :: ("TABLE x".data ++ b.data)) := by
      rw [dataAppend, dataAppend, List.append_assoc]
      rfl
    have hd : is_dangerous_query (a ++ "; DROP TABLE x" ++ b) = true := by
      unfold is_dangerous_query searchStr
      rw [hdata,
        searchP_append_of_all _ _ (fun p => searchP_danger_head _ p) a.data none]
      simp
    simp [safetyValidate, hd]
  · decide

/-- Claim C5, counterexample.  `validate_sql` checks only five of the eight
dialect-forbidden tokens; a query containing `VARIANCE` passes the Safety
Validator, contradicting the claim that every listed token is rejected. -/
theorem C5_variance_accepted_counterexample :
    containsStr "SELECT VARIANCE(Pts) FROM ucla_player_stats" "VARIANCE" = true ∧
    safetyValidate "SELECT VARIANCE(Pts) FROM ucla_player_stats" = (true, none) := by
  exact ⟨by decide, by decide⟩

/-- Claim C5 (amended).  Exactly the five tokens EXTRACT, INTERVAL, STDDEV,
ILIKE and the `::` cast operator are checked: any SQL string matching one of
their patterns is rejected, and each of the five maps to its own distinct
reason message.  VARIANCE, SIMILAR TO and SPLIT_PART are not checked (see
the counterexample). -/
theorem C5_five_forbidden_tokens_amended :
    (∀ s : String,
        (searchWordCI "EXTRACT" s || searchWordCI "INTERVAL" s ||
         searchWordCI "STDDEV" s || searchWordCI "ILIKE" s ||
         containsStr s "::") = true →
        (safetyValidate s).1 = false) ∧
    safetyValidate "a EXTRACT b" = (false, some "EXTRACT not supported in SQLite") ∧
    safetyValidate "a INTERVAL b" = (false, some "INTERVAL not supported in SQLite") ∧
    safetyValidate "a STDDEV b" = (false, some "STDDEV not supported in SQLite") ∧
    safetyValidate "a ILIKE b" = (false, some "ILIKE not supported in SQLite") ∧
    safetyValidate "a :: b" = (false, some "PostgreSQL casting (::) not supported") ∧
    ["EXTRACT not supported in SQLite", "INTERVAL not supported in SQLite",
     "STDDEV not supported in SQLite", "ILIKE not supported in SQLite",
     "PostgreSQL casting (::) not supported"].Nodup := by
  refine ⟨?_, by decide, by decide, by decide, by decide, by decide, by decide⟩
  intro s h
  cases hres : (safetyValidate s).1 with
  | false => rfl
  | true =>
    exfalso
    have hv : (validate_sql s).1 = true := by
      unfold safetyValidate at hres
      split_ifs at hres
      exact hres
    unfold validate_sql at hv
    split_ifs at hv
    simp_all

theorem C5_five_forbidden_tokens_amended_witness :
    (searchWordCI "EXTRACT" "a EXTRACT b" || searchWordCI "INTERVAL" "a EXTRACT b" ||
     searchWordCI "STDDEV" "a EXTRACT b" || searchWordCI "ILIKE" "a EXTRACT b" ||
     containsStr "a EXTRACT b" "::") = true ∧
    (safetyValidate "a EXTRACT b").1 = false :=
  ⟨by decide, C5_five_forbidden_tokens_amended.1 "a EXTRACT b" (by decide)⟩

/-- Claim C4, counterexample.  `( WHERE WHERE )` contains none of the
validator's forbidden patterns and has balanced parentheses, yet the Repair
Engine is not idempotent on it: the first pass rewrites the inner
`WHERE )` to `)` producing `( WHERE )`, which still matches the same
dangling-`WHERE` repair pattern, so a second pass changes it again. -/
theorem C4_where_cascade_counterexample :
    hasForbiddenPattern "( WHERE WHERE )" = false ∧
    parensBalanced "( WHERE WHERE )" = true ∧
    fix_sqlite_compatibility (fix_sqlite_compatibility "( WHERE WHERE )") ≠
      fix_sqlite_compatibility "( WHERE WHERE )" := by
  refine ⟨by decide, by decide, ?_⟩
  decide

/-- Claim C4 (amended).  The Repair Engine is idempotent on conformant
inputs that match none of its repair patterns (the spec's own proviso):
for every `x` with no forbidden tokens and balanced parentheses that the
engine leaves unchanged, `repair (repair x) = repair x`.  Idempotence does
not extend to all conformant inputs (see the counterexample, where a repair
pattern fires and its output matches the same pattern again). -/
theorem C4_repair_idempotent_amended :
    ∀ x : String, hasForbiddenPattern x = false → parensBalanced x = true →
      fix_sqlite_compatibility x = x →
      fix_sqlite_compatibility (fix_sqlite_compatibility x) = fix_sqlite_compatibility x := by
  intro x _ _ h
  rw [h]
  exact h

theorem C4_repair_idempotent_amended_witness :
    hasForbiddenPattern "SELECT * FROM ucla_player_stats" = false ∧
    parensBalanced "SELECT * FROM ucla_player_stats" = true ∧
    fix_sqlite_compatibility "SELECT * FROM ucla_player_stats" =
      "SELECT * FROM ucla_player_stats" ∧
    fix_sqlite_compatibility (fix_sqlite_compatibility "SELECT * FROM ucla_player_stats") =
      fix_sqlite_compatibility "SELECT * FROM ucla_player_stats" :=
  ⟨by decide, by decide, by decide,
   C4_repair_idempotent_amended "SELECT * FROM ucla_player_stats" (by decide) (by decide)
     (by decide)⟩

/-- Claim C7 (code bug).  Appending is exact: when `(` exceeds `)` by
`n > 0`, the balancing step appends exactly `n` closing parentheses.  But
stripping is not: the strip uses `re.sub(r'\)\s*$', '', sql, count=m)`,
whose end-anchored pattern can match at most once in the string, so for an
excess of `m = 2` trailing closing parens (input `x))`) only one is
removed (`x)`), not two as the claim and the spec state — the `count=m`
argument shows the intended behaviour, making this a slip in the code. -/
theorem C7_paren_balancing_strip_bug :
    (∀ (s : String) (n : Nat), 0 < n →
        countChar '(' s.data = countChar ')' s.data + n →
        balanceParens s = s ++ ⟨List.replicate n ')'⟩) ∧
    countChar ')' ("x))" : String).data = countChar '(' ("x))" : String).data + 2 ∧
    balanceParens "x))" = "x)" := by
  refine ⟨?_, by decide, by decide⟩
  intro s n hn h
  unfold balanceParens
  have hlt : countChar ')' s.data < countChar '(' s.data := by omega
  rw [if_pos hlt]
  have hsub : countChar '(' s.data - countChar ')' s.data = n := by omega
  rw [hsub]

theorem C7_paren_balancing_strip_bug_witness :
    0 < 3 ∧
    countChar '(' ("(((x" : String).data = countChar ')' ("(((x" : String).data + 3 ∧
    balanceParens "(((x" = "(((x" ++ ⟨List.replicate 3 ')'⟩ :=
  ⟨by decide, by decide, C7_paren_balancing_strip_bug.1 "(((x" 3 (by decide) (by decide)⟩

/-- Claim C6 (confirmed).  On any question matching the recognized
close-games comparison pattern, the Query Synthesizer returns the
canonical two-player template directly — for every behaviour of the
text-generation capability and at every retry level, so generation is
never invoked on this path (the result does not depend on `llm`). -/
theorem C6_close_games_bypass :
    ∀ (llm : String → Option String) (schemaStr q : String) (ents : List String)
      (retry : Nat),
      is_close_games_query q = true →
      generate_sql_query llm schemaStr q ents retry = some closeGamesTemplate := by
  intro llm schemaStr q ents retry h
  unfold generate_sql_query
  simp [h]

theorem C6_close_games_bypass_witness :
    is_close_games_query "Compare Kiki Rice and Londynn Jones in close games" = true ∧
    generate_sql_query llmAlwaysFail "schema"
        "Compare Kiki Rice and Londynn Jones in close games" [] 0 =
      some closeGamesTemplate :=
  ⟨by decide,
   C6_close_games_bypass llmAlwaysFail "schema"
     "Compare Kiki Rice and Londynn Jones in close games" [] 0 (by decide)⟩

/-- When the text-generation capability fails on every call,
`generate_sql_query` returns `none` for any non-close-games question: the
generation exception is caught and the function gives up without retrying
(src/query_generator.py:67-72). -/
theorem generate_sql_query_llm_fail (schemaStr q : String) (ents : List String)
    (retry : Nat) (h : is_close_games_query q = false) :
    generate_sql_query llmAlwaysFail schemaStr q ents retry = none := by
  unfold generate_sql_query
  simp [h, llmAlwaysFail]

/-- Claim C2, counterexample.  With generation failing on every attempt, a
question whose fallback would succeed ("average points", resolved player,
database returning rows — the fallback ladder applied directly yields a
successful envelope) still gets `succeeded = false` from `process_query`:
on generation failure the orchestrator returns the failure envelope
immediately (src/rag_pipeline.py:56-57) without running any fallback. -/
theorem C2_generation_failure_counterexample :
    (try_fallback llmAlwaysFail dbAllRows "average points" ["Betts, Lauren"]).isSome
        = true ∧
    (process_query llmAlwaysFail dbAllRows (.ok ["Betts, Lauren"]) "schema"
        "average points").success = false ∧
    (process_query llmAlwaysFail dbAllRows (.ok ["Betts, Lauren"]) "schema"
        "average points").fallback_used = false := by
  have hgen := generate_sql_query_llm_fail "schema" "average points" ["Betts, Lauren"] 0
    (by decide)
  refine ⟨by decide, ?_, ?_⟩ <;> simp [process_query, hgen, error_response]

/-- Claim C2 (amended).  If the text-generation capability fails (raises) on
its attempt, `generate_sql_query` returns no SQL and `process_query`
returns the terminal failure envelope (`succeeded = false`, error detail
"Failed to generate SQL query") without running the fallback ladder: a
generation failure IS by itself fatal to a non-close-games request; the
fallback ladder runs only on validation failure or execution error. -/
theorem C2_generation_failure_fatal_amended :
    ∀ (db : Db) (schemaStr q : String) (ents : List String),
      is_close_games_query q = false →
      process_query llmAlwaysFail db (.ok ents) schemaStr q =
        error_response q "Failed to generate SQL query" none := by
  intro db schemaStr q ents h
  have hgen := generate_sql_query_llm_fail schemaStr q ents 0 h
  simp [process_query, hgen]

theorem C2_generation_failure_fatal_amended_witness :
    is_close_games_query "average points" = false ∧
    process_query llmAlwaysFail dbAllRows (.ok ["Betts, Lauren"]) "schema"
        "average points" =
      error_response "average points" "Failed to generate SQL query" none :=
  ⟨by decide,
   C2_generation_failure_fatal_amended dbAllRows "schema" "average points"
     ["Betts, Lauren"] (by decide)⟩

/-- Claim C3 (confirmed).  The embedded `process_query` is a total function
into the Result Envelope for every behaviour of the external capabilities
(generation, extraction, execution) — no exception escapes; all fallible
calls return values that every code path handles.  When the one call that
can raise inside the orchestrator's `try` does so, the envelope is the
generic failure: the narrative shown to the user is the fixed apology
message and the exception detail is kept only in the error-detail field. -/
theorem C3_exception_converted_to_envelope :
    ∀ (llm : String → Option String) (db : Db) (schemaStr q e : String),
      process_query llm db (.error e) schemaStr q =
        { user_query := q, extracted_entities := none, error := some e,
          sql_query := none, query_results := none,
          response := "I encountered an unexpected error. Please try again or rephrase your question.",
          success := false, fallback_used := false } := by
  intro llm db schemaStr q e
  rfl

/-- Claim C8 (confirmed).  On the empty-result path with resolved player
names present, when the bounded substitution removes the player-equality
clause (it changed the SQL) and re-execution returns rows, `_handle_empty`
yields an envelope with `succeeded = true`, `used_fallback = true`, the
qualifying narrative prefix, and results truncated to at most 5 rows. -/
theorem C8_empty_result_recovery :
    ∀ (llm : String → Option String) (db : Db) (q sql : String)
      (ents : List String) (rows : List Row),
      ents ≠ [] →
      strip_player_predicate sql ≠ sql →
      db (strip_player_predicate sql) = (some rows, none) →
      rows ≠ [] →
      handle_empty llm db q ents sql =
        some { user_query := q, sql_query := some (strip_player_predicate sql),
               query_results := some (rows.take 5),
               response :=
                 "I couldn't find specific data for that player. Here's what I found instead:\n"
                   ++ generate_response llm q (strip_player_predicate sql) (rows.take 5),
               success := true, fallback_used := true } := by
  intro llm db q sql ents rows h1 h2 h3 h4
  have hne : ents.isEmpty = false := by
    cases ents with
    | nil => exact absurd rfl h1
    | cons a t => rfl
  have hrows : rows.isEmpty = false := by
    cases rows with
    | nil => exact absurd rfl h4
    | cons a t => rfl
  simp [handle_empty, hne, h2, h3, pyTruthyErr, pyTruthyRows, hrows]

def sqlC8 : String := "SELECT * FROM ucla_player_stats WHERE Name = 'X' AND Pts > 5"

theorem C8_empty_result_recovery_witness :
    (["Betts, Lauren"] : List String) ≠ [] ∧
    strip_player_predicate sqlC8 ≠ sqlC8 ∧
    dbAllRows (strip_player_predicate sqlC8) = (some [["Betts, Lauren", "20.0"]], none) ∧
    ([["Betts, Lauren", "20.0"]] : List Row) ≠ [] ∧
    handle_empty llmAlwaysFail dbAllRows "q" ["Betts, Lauren"] sqlC8 =
      some { user_query := "q", sql_query := some (strip_player_predicate sqlC8),
             query_results := some (([["Betts, Lauren", "20.0"]] : List Row).take 5),
             response :=
               "I couldn't find specific data for that player. Here's what I found instead:\n"
                 ++ generate_response llmAlwaysFail "q" (strip_player_predicate sqlC8)
                     (([["Betts, Lauren", "20.0"]] : List Row).take 5),
             success := true, fallback_used := true } :=
  ⟨by decide, by decide, rfl, by decide,
   C8_empty_result_recovery llmAlwaysFail dbAllRows "q" sqlC8 ["Betts, Lauren"]
     [["Betts, Lauren", "20.0"]] (by decide) (by decide) rfl (by decide)⟩

/-- Anatomy of one successful fallback attempt: it must come from a present
candidate that validates, executes without a (truthy) error, and returns at
least one row, and the envelope is the fallback envelope for it. -/
theorem attempt_fallback_spec (llm : String → Option String) (db : Db) (q : String)
    (cand : Option String) (env : Envelope)
    (h : attempt_fallback llm db q cand = some env) :
    ∃ sql rows err, cand = some sql ∧
      env = { user_query := q, sql_query := some sql, query_results := some rows,
              response := generate_response llm q sql rows ++ noteSuffix,
              success := true, fallback_used := true } ∧
      (validate_sql sql).1 = true ∧ db sql = (some rows, err) ∧
      pyTruthyErr err = false ∧ rows ≠ [] := by
  cases cand with
  | none => simp [attempt_fallback] at h
  | some fsql =>
    simp only [attempt_fallback] at h
    rcases hdb : db fsql with ⟨results, err⟩
    rw [hdb] at h
    cases hv : (validate_sql fsql).1 with
    | false => rw [hv] at h; simp at h
    | true =>
      rw [hv] at h
      simp only [Bool.not_true, Bool.false_eq_true, if_false] at h
      cases htr : (pyTruthyErr err || !pyTruthyRows results) with
      | true => rw [htr] at h; simp at h
      | false =>
        rw [htr] at h
        simp only [Bool.false_eq_true, if_false, Option.some.injEq] at h
        have herr : pyTruthyErr err = false := by
          cases hpe : pyTruthyErr err
          · rfl
          · rw [hpe] at htr; simp at htr
        have hpr : pyTruthyRows results = true := by
          cases hpr0 : pyTruthyRows results
          · rw [hpr0] at htr; simp at htr
          · rfl
        cases results with
        | none => simp [pyTruthyRows] at hpr
        | some rows =>
          refine ⟨fsql, rows, err, rfl, ?_, hv, hdb, herr, ?_⟩
          · rw [← h]; rfl
          · intro hcon
            subst hcon
            simp [pyTruthyRows] at hpr

/-- An attempt of the fallback loop is skipped (yields no envelope) exactly
when the candidate is absent, fails validation, executes with a truthy
error, or returns no rows — the loop's `continue` conditions
(src/rag_pipeline.py:130-139). -/
theorem attempt_fallback_none_iff (llm : String → Option String) (db : Db) (q : String)
    (cand : Option String) :
    attempt_fallback llm db q cand = none ↔
      (cand = none ∨ ∃ sql, cand = some sql ∧
        ((validate_sql sql).1 = false ∨ pyTruthyErr (db sql).2 = true ∨
         pyTruthyRows (db sql).1 = false)) := by
  cases cand with
  | none => simp [attempt_fallback]
  | some fsql =>
    rcases hdb : db fsql with ⟨results, err⟩
    constructor
    · intro h
      cases hv : (validate_sql fsql).1 with
      | false => exact Or.inr ⟨fsql, rfl, Or.inl hv⟩
      | true =>
        cases hpe : pyTruthyErr err with
        | true => exact Or.inr ⟨fsql, rfl, Or.inr (Or.inl (by rw [hdb]; exact hpe))⟩
        | false =>
          cases hpr : pyTruthyRows results with
          | false => exact Or.inr ⟨fsql, rfl, Or.inr (Or.inr (by rw [hdb]; exact hpr))⟩
          | true =>
            exfalso
            simp [attempt_fallback, hdb, hv, hpe, hpr] at h
    · intro h
      rcases h with h | ⟨sql, heq, hdis⟩
      · exact absurd h (by simp)
      · injection heq with heq2
        subst heq2
        rcases hdis with hval | herr | hrows
        · simp [attempt_fallback, hval]
        · rw [hdb] at herr
          simp [attempt_fallback, hdb, herr]
        · rw [hdb] at hrows
          simp [attempt_fallback, hdb, hrows]

/-- Claim C9 (confirmed).  The parts together pin the whole ladder.
(1) Any envelope the fallback ladder produces has `succeeded = true`,
`used_fallback = true`, a narrative carrying the simplified-query
disclosure suffix, and comes from one of the three template generators
whose candidate passed validation and returned at least one row with no
execution error.  (2) Whenever the first generator (simple aggregation)
yields a candidate that validates and returns rows, its envelope is the
result.  (3) An attempt is skipped exactly when its candidate is absent,
fails validation, errors on execution, or returns no rows (and it is never
retried: each generator is consulted once per run).  (4)–(6) The order is
fixed — simple-aggregation, then basic-player-lookup, then top-performers:
if the first attempt succeeds its envelope is the result; if it is skipped
and the second succeeds, the second's envelope is the result; if both are
skipped and the third succeeds, the third's envelope is the result.
(7) The ladder yields nothing exactly when all three attempts are skipped,
so the first attempt that validates and returns at least one row always
determines the result. -/
theorem C9_fallback_ladder_contract :
    (∀ (llm : String → Option String) (db : Db) (q : String) (ents : List String)
        (env : Envelope),
        try_fallback llm db q ents = some env →
        env.success = true ∧ env.fallback_used = true ∧
        (∃ body, env.response = body ++ noteSuffix) ∧
        (∃ sql rows err, env.sql_query = some sql ∧ env.query_results = some rows ∧
           (validate_sql sql).1 = true ∧ db sql = (some rows, err) ∧
           pyTruthyErr err = false ∧ rows ≠ [] ∧
           (simple_aggregation_query q ents = some sql ∨
            basic_player_query q ents = some sql ∨
            top_performers_query q ents = some sql))) ∧
    (∀ (llm : String → Option String) (db : Db) (q : String) (ents : List String)
        (sql : String) (rows : List Row),
        simple_aggregation_query q ents = some sql →
        (validate_sql sql).1 = true →
        db sql = (some rows, none) →
        rows ≠ [] →
        try_fallback llm db q ents =
          some { user_query := q, sql_query := some sql, query_results := some rows,
                 response := generate_response llm q sql rows ++ noteSuffix,
                 success := true, fallback_used := true }) ∧
    (∀ (llm : String → Option String) (db : Db) (q : String) (cand : Option String),
        attempt_fallback llm db q cand = none ↔
          (cand = none ∨ ∃ sql, cand = some sql ∧
            ((validate_sql sql).1 = false ∨ pyTruthyErr (db sql).2 = true ∨
             pyTruthyRows (db sql).1 = false))) ∧
    (∀ (llm : String → Option String) (db : Db) (q : String) (ents : List String)
        (env : Envelope),
        attempt_fallback llm db q (simple_aggregation_query q ents) = some env →
        try_fallback llm db q ents = some env) ∧
    (∀ (llm : String → Option String) (db : Db) (q : String) (ents : List String)
        (env : Envelope),
        attempt_fallback llm db q (simple_aggregation_query q ents) = none →
        attempt_fallback llm db q (basic_player_query q ents) = some env →
        try_fallback llm db q ents = some env) ∧
    (∀ (llm : String → Option String) (db : Db) (q : String) (ents : List String)
        (env : Envelope),
        attempt_fallback llm db q (simple_aggregation_query q ents) = none →
        attempt_fallback llm db q (basic_player_query q ents) = none →
        attempt_fallback llm db q (top_performers_query q ents) = some env →
        try_fallback llm db q ents = some env) ∧
    (∀ (llm : String → Option String) (db : Db) (q : String) (ents : List String),
        try_fallback llm db q ents = none ↔
          (attempt_fallback llm db q (simple_aggregation_query q ents) = none ∧
           attempt_fallback llm db q (basic_player_query q ents) = none ∧
           attempt_fallback llm db q (top_performers_query q ents) = none)) := by
  refine ⟨?_, ?_, ?_, ?_, ?_, ?_, ?_⟩
  · intro llm db q ents env h
    unfold try_fallback at h
    cases h1 : attempt_fallback llm db q (simple_aggregation_query q ents) with
    | some e =>
      rw [h1] at h
      simp only [Option.some.injEq] at h
      subst h
      obtain ⟨sql, rows, err, hcand, henv, hval, hdb, herr, hne⟩ :=
        attempt_fallback_spec llm db q _ e h1
      subst henv
      exact ⟨rfl, rfl, ⟨generate_response llm q sql rows, rfl⟩,
        sql, rows, err, rfl, rfl, hval, hdb, herr, hne, Or.inl hcand⟩
    | none =>
      rw [h1] at h
      cases h2 : attempt_fallback llm db q (basic_player_query q ents) with
      | some e =>
        rw [h2] at h
        simp only [Option.some.injEq] at h
        subst h
        obtain ⟨sql, rows, err, hcand, henv, hval, hdb, herr, hne⟩ :=
          attempt_fallback_spec llm db q _ e h2
        subst henv
        exact ⟨rfl, rfl, ⟨generate_response llm q sql rows, rfl⟩,
          sql, rows, err, rfl, rfl, hval, hdb, herr, hne, Or.inr (Or.inl hcand)⟩
      | none =>
        rw [h2] at h
        obtain ⟨sql, rows, err, hcand, henv, hval, hdb, herr, hne⟩ :=
          attempt_fallback_spec llm db q _ env h
        subst henv
        exact ⟨rfl, rfl, ⟨generate_response llm q sql rows, rfl⟩,
          sql, rows, err, rfl, rfl, hval, hdb, herr, hne, Or.inr (Or.inr hcand)⟩
  · intro llm db q ents sql rows hs hv hdb hrows
    have hrowsE : rows.isEmpty = false := by
      cases rows with
      | nil => exact absurd rfl hrows
      | cons a t => rfl
    unfold try_fallback
    rw [hs]
    simp [attempt_fallback, hv, hdb, pyTruthyErr, pyTruthyRows, hrowsE]
  · exact fun llm db q cand => attempt_fallback_none_iff llm db q cand
  · intro llm db q ents env h1
    simp [try_fallback, h1]
  · intro llm db q ents env h1 h2
    simp [try_fallback, h1, h2]
  · intro llm db q ents env h1 h2 h3
    simp [try_fallback, h1, h2, h3]
  · intro llm db q ents
    unfold try_fallback
    cases h1 : attempt_fallback llm db q (simple_aggregation_query q ents) with
    | some e => simp [h1]
    | none =>
      cases h2 : attempt_fallback llm db q (basic_player_query q ents) with
      | some e => simp [h1, h2]
      | none =>
        cases h3 : attempt_fallback llm db q (top_performers_query q ents) with
        | some e => simp [h1, h2, h3]
        | none => simp [h1, h2, h3]

def c9AggSql : String := simpleAggPointsSql (playerFilterOf ["Betts, Lauren"])

def c9BasicSql : String := basicPlayerSql ("Name IN ('Betts, Lauren')")

/-- The fallback envelope the basic-player-lookup generator produces for the
question "player stats" with the resolved player and `dbAllRows`. -/
def c9BasicEnv : Envelope :=
  { user_query := "player stats", sql_query := some c9BasicSql,
    query_results := some [["Betts, Lauren", "20.0"]],
    response := generate_response llmAlwaysFail "player stats" c9BasicSql
        [["Betts, Lauren", "20.0"]] ++ noteSuffix,
    success := true, fallback_used := true }

theorem C9_fallback_ladder_contract_witness :
    simple_aggregation_query "average points" ["Betts, Lauren"] = some c9AggSql ∧
    (validate_sql c9AggSql).1 = true ∧
    dbAllRows c9AggSql = (some [["Betts, Lauren", "20.0"]], none) ∧
    ([["Betts, Lauren", "20.0"]] : List Row) ≠ [] ∧
    try_fallback llmAlwaysFail dbAllRows "average points" ["Betts, Lauren"] =
      some { user_query := "average points", sql_query := some c9AggSql,
             query_results := some [["Betts, Lauren", "20.0"]],
             response := generate_response llmAlwaysFail "average points" c9AggSql
                 [["Betts, Lauren", "20.0"]] ++ noteSuffix,
             success := true, fallback_used := true } ∧
    attempt_fallback llmAlwaysFail dbAllRows "player stats"
        (simple_aggregation_query "player stats" ["Betts, Lauren"]) = none ∧
    attempt_fallback llmAlwaysFail dbAllRows "player stats"
        (basic_player_query "player stats" ["Betts, Lauren"]) = some c9BasicEnv ∧
    try_fallback llmAlwaysFail dbAllRows "player stats" ["Betts, Lauren"] =
      some c9BasicEnv :=
  ⟨by decide, by decide, rfl, by decide,
   C9_fallback_ladder_contract.2.1 llmAlwaysFail dbAllRows "average points"
     ["Betts, Lauren"] c9AggSql [["Betts, Lauren", "20.0"]] (by decide) (by decide) rfl
     (by decide),
   by decide, by decide,
   C9_fallback_ladder_contract.2.2.2.2.1 llmAlwaysFail dbAllRows "player stats"
     ["Betts, Lauren"] c9BasicEnv (by decide) (by decide)⟩

/-- Claim C10 (confirmed).  The embedded `execute_query` is total with
errors as values: with `return_error = true` it returns, for every engine
behaviour and every query, either `(rows, none)` or `(none, message)`.
Each case is pinned: a dangerous-pattern rejection yields `(none, fixed
danger message)`, a successful engine run yields `(rows, none)`, an engine
raising a SQLite error `e` yields `(none, "SQLite error: " ++ e)`, and an
engine raising any other exception `e` yields
`(none, "Unexpected error: " ++ e)` — so every SQLite error and every
unexpected exception is absorbed into an error value, never propagated. -/
theorem C10_execute_query_total :
    (∀ (engine : Engine) (q : String),
        (∃ rows, execute_query engine q true = .pair (some rows) none) ∨
        (∃ msg, execute_query engine q true = .pair none (some msg))) ∧
    (∀ (engine : Engine) (q : String), is_dangerous_query q = true →
        execute_query engine q true = .pair none (some dangerMsg)) ∧
    (∀ (engine : Engine) (q : String) (rows : List Row),
        is_dangerous_query q = false → engine q = .ok rows →
        execute_query engine q true = .pair (some rows) none) ∧
    (∀ (engine : Engine) (q e : String),
        is_dangerous_query q = false → engine q = .sqliteErr e →
        execute_query engine q true = .pair none (some ("SQLite error: " ++ e))) ∧
    (∀ (engine : Engine) (q e : String),
        is_dangerous_query q = false → engine q = .otherErr e →
        execute_query engine q true = .pair none (some ("Unexpected error: " ++ e))) := by
  refine ⟨?_, ?_, ?_, ?_, ?_⟩
  · intro engine q
    by_cases hd : is_dangerous_query q = true
    · exact Or.inr ⟨dangerMsg, by simp [execute_query, hd]⟩
    · have hd2 : is_dangerous_query q = false := by simpa using hd
      cases he : engine q with
      | ok r => exact Or.inl ⟨r, by simp [execute_query, hd2, he]⟩
      | sqliteErr e =>
        exact Or.inr ⟨"SQLite error: " ++ e, by simp [execute_query, hd2, he]⟩
      | otherErr e =>
        exact Or.inr ⟨"Unexpected error: " ++ e, by simp [execute_query, hd2, he]⟩
  · intro engine q hd
    simp [execute_query, hd]
  · intro engine q rows hd he
    simp [execute_query, hd, he]
  · intro engine q e hd he
    simp [execute_query, hd, he]
  · intro engine q e hd he
    simp [execute_query, hd, he]

/-- A SQLite engine behaviour that raises a `sqlite3.Error` on every
statement. -/
def engineSqliteFail : Engine := fun _ => .sqliteErr "no such table"

theorem C10_execute_query_total_witness :
    is_dangerous_query "x; DROP TABLE y" = true ∧
    execute_query engineEmpty "x; DROP TABLE y" true = .pair none (some dangerMsg) ∧
    is_dangerous_query "SELECT 1 FROM ucla_player_stats" = false ∧
    engineSqliteFail "SELECT 1 FROM ucla_player_stats" = .sqliteErr "no such table" ∧
    execute_query engineSqliteFail "SELECT 1 FROM ucla_player_stats" true =
      .pair none (some ("SQLite error: " ++ "no such table")) :=
  ⟨by decide,
   C10_execute_query_total.2.1 engineEmpty "x; DROP TABLE y" (by decide),
   by decide, rfl,
   C10_execute_query_total.2.2.2.1 engineSqliteFail "SELECT 1 FROM ucla_player_stats"
     "no such table" (by decide) rfl⟩

end UclaRag
